import Mathlib

/-!
# Verification of the aiojlrpy STOMP/session layer

Shallow embedding of `src/aiojlrpy/stomp.py` (class `JLRStompClient`) and the
`ws_connect` entry point of `src/aiojlrpy/connection.py`.

Python strings are modelled as `List Char` (`Str`); Python dicts as
insertion-ordered association lists with the update/removal behaviour of
`dict.__setitem__` / `dict.pop`; Python exceptions as an `Except PyError`
result.  Outbound effects (websocket sends, callback invocations) are recorded
as an explicit event list.  `json.loads` (a standard-library call) is modelled
as an abstract `Decode` parameter; `datetime.now()` (wall clock, only stored in
the `received` field, which no claim mentions) is omitted from `StatusMessage`.
-/

deriving instance DecidableEq for Except

namespace Aiojlrpy

/-- Python `str` is modelled as a list of characters. -/
abbrev Str := List Char

/-- Coerce a Lean string literal to the `Str` model. -/
def str (s : String) : Str := s.data

/-- `BYTE["LF"]` = `"\x0A"` in the source. -/
def lf : Char := '\n'

/-- `BYTE["NULL"]` = `"\x00"` in the source. -/
def nul : Char := Char.ofNat 0

/-- The header separator character. -/
def colon : Char := ':'

/-- Python `s.split(sep)` for a single-character separator: splits on every
occurrence, keeping empty chunks; `"".split(sep) == [""]`. -/
def splitOnChar (sep : Char) : Str → List Str
  | [] => [[]]
  | c :: cs =>
    if c = sep then [] :: splitOnChar sep cs
    else
      match splitOnChar sep cs with
      | [] => [[c]]
      | l :: ls => (c :: l) :: ls

/-- CPython's whitespace predicate (`Py_UNICODE_ISSPACE`), the set stripped by
`str.strip()`: `\t\n\x0b\x0c\r` (9-13), the separator controls `\x1c`-`\x1f`,
the space (32), NEL `\x85`, NBSP `\xa0`, Ogham space 0x1680, the Unicode
space separators 0x2000-0x200a, line/paragraph separators 0x2028/0x2029,
narrow NBSP 0x202f, medium mathematical space 0x205f and ideographic space
0x3000. -/
def isPySpace (c : Char) : Bool :=
  (9 <= c.toNat && c.toNat <= 13) || (28 <= c.toNat && c.toNat <= 32)
    || c.toNat = 133 || c.toNat = 160 || c.toNat = 5760
    || (8192 <= c.toNat && c.toNat <= 8202) || c.toNat = 8232 || c.toNat = 8233
    || c.toNat = 8239 || c.toNat = 8287 || c.toNat = 12288

/-- Python `str.strip()`. -/
def pyStrip (s : Str) : Str :=
  ((s.dropWhile isPySpace).reverse.dropWhile isPySpace).reverse

/-- Python exceptions / error classes raised by the modelled code. -/
inductive PyError where
  | valueError      -- tuple-unpacking failure in `_parse_message`
  | indexError      -- list index out of range in `_parse_message`
  | keyError        -- dict subscript / `pop` on a missing key
  | typeError       -- e.g. string concatenation with a non-string header value
  | attributeError  -- `.get` on a non-dict JSON value
  | jsonDecodeError -- `json.loads` failure
  | transportError  -- raised by `ws.send_message`
  | jlrError        -- `JLRException` from `connection.py`
  deriving DecidableEq, Repr

/-- `JLRStompClient._transmit`: marshal a frame.  Mirrors the Python truthiness
checks: no command line when `command` is `None`/empty, no header section (and
in particular no blank terminator line) when `headers` is `None`/empty, no body
when `msg` is `None`/empty; always terminated by the NUL octet. -/
def transmitFrame (command : Option Str) (headers : List (Str × Str)) (msg : Option Str) : Str :=
  let l1 : List Str :=
    match command with
    | some c => if c = [] then [] else [c ++ [lf]]
    | none => []
  let l2 : List Str :=
    if headers = [] then []
    else headers.map (fun kv => kv.1 ++ colon :: kv.2 ++ [lf]) ++ [[lf]]
  let l3 : List Str :=
    match msg with
    | some m => if m = [] then [] else [m]
    | none => []
  (l1 ++ l2 ++ l3 ++ [[nul]]).flatten

/-- One header line of `_parse_message`: `(key, value) = lines[i].split(":")`.
Python raises `ValueError` unless the split yields exactly two parts, i.e.
unless the line contains exactly one colon. -/
def splitHeaderLine (line : Str) : Except PyError (Str × Str) :=
  match splitOnChar colon line with
  | [k, v] => .ok (k, v)
  | _ => .error .valueError

/-- Python `dict` assignment `d[k] = v` on an insertion-ordered association
list: overwrite in place if the key exists, else append. -/
def dictInsert (d : List (Str × α)) (k : Str) (v : α) : List (Str × α) :=
  match d with
  | [] => [(k, v)]
  | (k', v') :: rest => if k' = k then (k', v) :: rest else (k', v') :: dictInsert rest k v

/-- Python `dict` lookup (`d.get(k)` / `d[k]` before the `KeyError` check). -/
def dictGet (d : List (Str × α)) (k : Str) : Option α :=
  match d with
  | [] => none
  | (k', v) :: rest => if k' = k then some v else dictGet rest k

/-- Python `d.pop(k)`'s removal effect (single entry, keys are unique). -/
def dictRemove (d : List (Str × α)) (k : Str) : List (Str × α) :=
  match d with
  | [] => []
  | (k', v) :: rest => if k' = k then rest else (k', v) :: dictRemove rest k

/-- The header loop of `_parse_message`: consume lines until the first empty
line, building the header dict; running out of lines is Python's `IndexError`.
Returns the headers and the remaining lines after the blank terminator. -/
def parseHeaderLines : List Str → List (Str × Str) → Except PyError (List (Str × Str) × List Str)
  | [], _ => .error .indexError
  | l :: rest, acc =>
    if l = [] then .ok (acc, rest)
    else
      match splitHeaderLine l with
      | .error e => .error e
      | .ok (k, v) => parseHeaderLines rest (dictInsert acc k v)

/-- `JLRStompClient._parse_message`: split the raw frame on LF; first line,
stripped, is the command; subsequent lines up to the first empty line are
headers; the line after the blank terminator is the body unless it is the lone
NUL octet. -/
def parse_message (frame : Str) : Except PyError (Str × List (Str × Str) × Option Str) :=
  match splitOnChar lf frame with
  | [] => .error .indexError
  | cmdLine :: rest =>
    match parseHeaderLines rest [] with
    | .error e => .error e
    | .ok (headers, after) =>
      match after with
      | [] => .error .indexError
      | b :: _ => .ok (pyStrip cmdLine, headers, if b = [nul] then none else some b)

/-- Keys of an association list. -/
def keys (d : List (Str × α)) : List Str := d.map Prod.fst


/-! ## JSON values and the message dispatcher -/

/-- Decoded JSON values (the result of `json.loads`).  Numbers are modelled as
integers: every numeric payload a claim mentions is integral, and only
truthiness and equality of numbers matter to the modelled code. -/
inductive Json where
  | null
  | bool (b : Bool)
  | num (n : Int)
  | str (s : Str)
  | arr (elems : List Json)
  | obj (fields : List (Str × Json))

/-- Python truthiness of a decoded JSON value (`if body.get("a")`). -/
def Json.truthy : Json → Bool
  | .null => false
  | .bool b => b
  | .num n => n != 0
  | .str s => !s.isEmpty
  | .arr xs => !xs.isEmpty
  | .obj fs => !fs.isEmpty

/-- `body.get(k)` on a decoded JSON object's fields.  JSON `null` decodes to
Python `None`, which `dict.get` returns for a missing key as well, so the two
cases are collapsed, exactly as in Python. -/
def pyDictGet (fields : List (Str × Json)) (k : Str) : Option Json :=
  match dictGet fields k with
  | some Json.null => none
  | r => r

/-- `StatusMessage` dataclass (the spec's StatusEvent).  The `received` field
(`datetime.now()`, wall clock) is omitted: no claim mentions it.  Absent keys
are Python `None`, modelled as `none`. -/
structure StatusMessage where
  command : Str
  message_timestamp : Option Json
  vin : Option Json
  service : Option Json
  topic : Option Str
  data : Json

/-- `Subscription` dataclass; the callback is an opaque identifier. -/
structure Subscription where
  sub_id : Nat
  callback : Nat
  deriving DecidableEq, Repr

/-- The mutable state of a `JLRStompClient`. -/
structure ClientState where
  subscriptions : List (Str × Subscription)
  connected : Bool
  device_id : Str
  deriving DecidableEq, Repr

/-- Observable outbound effects of the client, in order of occurrence.
`transmit` records one `_transmit` call (which serializes its arguments with
`transmitFrame` and sends the result over the websocket); `wsSend` records a
raw `ws.send_message` (heartbeat `"\n"`, close sentinel `"CLOSE"`);
`callback` records one invocation of a subscription's callback. -/
inductive Event where
  | transmit (command : Option Str) (headers : List (Str × Str)) (msg : Option Str)
  | wsSend (raw : Str)
  | callback (cb : Nat) (message : StatusMessage)

/-- The websocket transport: accepts an outbound string or raises. -/
abbrev Tx := Str → Except PyError Unit

/-- A transport that accepts every send. -/
def txOk : Tx := fun _ => .ok ()

/-- A transport whose send always raises. -/
def txFail : Tx := fun _ => .error .transportError

/-- `json.loads` composed over the dispatcher's body handling is a Python
standard-library call; it is modelled as an abstract decode function. -/
abbrev Decode := Str → Except PyError Json

/-- A decode function returning a fixed value (used at concrete inputs). -/
def constDecode (j : Json) : Decode := fun _ => .ok j

/-- `_transmit` as an effect: serialize and send the frame, recording the
call's arguments as an event. -/
def transmit (tx : Tx) (command : Option Str) (headers : List (Str × Str)) (msg : Option Str) :
    Except PyError Event :=
  match tx (transmitFrame command headers msg) with
  | .error e => .error e
  | .ok _ => .ok (.transmit command headers msg)

/-- `JLRStompClient.send`: add the `destination` header and transmit a SEND
frame. -/
def send (tx : Tx) (destination : Str) (headers : List (Str × Str)) (message : Str) :
    Except PyError Event :=
  transmit tx (some (str "SEND")) (dictInsert headers (str "destination") destination)
    (some message)

/-- Body of the acknowledgement SEND frame: `f'{{"a": "{message_id}"}}'`. -/
def ackBody (message_id : Str) : Str :=
  Char.ofNat 123 :: (str "\"a\": \"") ++ message_id ++ [Char.ofNat 34, Char.ofNat 125]

/-- The `vin` header of `ack_message`: included only when `vin` is truthy
(Python `if vin:`); a truthy non-string value would make `_transmit`'s string
concatenation raise `TypeError`. -/
def vinHeader : Option Json → Except PyError (List (Str × Str))
  | none => .ok []
  | some v =>
    if v.truthy then
      match v with
      | .str s => .ok [(str "vin", s)]
      | _ => .error .typeError
    else .ok []

/-- `JLRStompClient.ack_message`: SEND `{"a": "<message-id>"}` to
`/app/messageRecieved` with `vin` (when truthy), `device` and `content-type`
headers. -/
def ack_message (tx : Tx) (device_id : Str) (message_id : Str) (vin : Option Json) :
    Except PyError Event :=
  match vinHeader vin with
  | .error e => .error e
  | .ok vh =>
    send tx (str "/app/messageRecieved")
      (vh ++ [(str "device", device_id),
              (str "content-type", str "application/json;charset=UTF-8")])
      (ackBody message_id)

/-- `string.printable` membership: ASCII 32..126 plus `\t\n\r\x0b\x0c`. -/
def isPrintable (c : Char) : Bool :=
  (32 ≤ c.toNat && c.toNat ≤ 126) || c = '\t' || c = '\n' || c = '\r'
    || c.toNat = 11 || c.toNat = 12

/-- `JLRStompClient._filter_non_printable`. -/
def filter_non_printable (raw : Str) : Str := raw.filter isPrintable

/-- `JLRStompClient._get_status_message`: build a `StatusMessage` from a
decoded body.  `.get` on a non-dict raises `AttributeError`; `data` is the
body's `a` value when that value is truthy, else the whole body. -/
def get_status_message (command : Str) (headers : List (Str × Str)) (body : Json) :
    Except PyError StatusMessage :=
  match body with
  | .obj fs =>
    .ok { command := command
          message_timestamp := pyDictGet fs (str "t")
          vin := pyDictGet fs (str "v")
          service := pyDictGet fs (str "st")
          topic := dictGet headers (str "destination")
          data :=
            match pyDictGet fs (str "a") with
            | some a => if a.truthy then a else body
            | none => body }
  | _ => .error .attributeError

/-- Python `d[k]` (raises `KeyError` when missing). -/
def dictGetE (d : List (Str × α)) (k : Str) : Except PyError α :=
  match dictGet d k with
  | some v => .ok v
  | none => .error .keyError

/-- The batched-body loop of `_on_message`: for each element, look up the
destination's subscription and call its callback with the element's status
message (each lookup is re-evaluated per iteration, as in the Python `for`
body). -/
def dispatchList (st : ClientState) (command : Str) (headers : List (Str × Str)) :
    List Json → Except PyError (List Event)
  | [] => .ok []
  | b :: rest =>
    match dictGetE headers (str "destination") with
    | .error e => .error e
    | .ok dest =>
      match dictGetE st.subscriptions dest with
      | .error e => .error e
      | .ok sub =>
        match get_status_message command headers b with
        | .error e => .error e
        | .ok sm =>
          match dispatchList st command headers rest with
          | .error e => .error e
          | .ok evs => .ok (.callback sub.callback sm :: evs)

/-- `JLRStompClient._on_message`: heartbeat echo for a lone line feed; else
parse the frame, flip `connected` on CONNECTED, and on MESSAGE dispatch the
decoded body — per element without acknowledgement for an array, else one
callback followed by one acknowledgement frame. -/
def on_message (tx : Tx) (dec : Decode) (st : ClientState) (message : Str) :
    Except PyError (ClientState × List Event) :=
  if message = [lf] then
    match tx [lf] with
    | .error e => .error e
    | .ok _ => .ok (st, [.wsSend [lf]])
  else
    match parse_message message with
    | .error e => .error e
    | .ok (command, headers, body) =>
      let st1 := if command = str "CONNECTED" then { st with connected := true } else st
      if command = str "MESSAGE" then
        match body with
        | none => .error .typeError   -- `_filter_non_printable(None)` raises
        | some raw =>
          match dec (filter_non_printable raw) with
          | .error e => .error e
          | .ok bj =>
            match bj with
            | .arr elems =>
              match dispatchList st1 command headers elems with
              | .error e => .error e
              | .ok evs => .ok (st1, evs)
            | _ =>
              match get_status_message command headers bj with
              | .error e => .error e
              | .ok sm =>
                match dictGetE headers (str "destination") with
                | .error e => .error e
                | .ok dest =>
                  match dictGetE st1.subscriptions dest with
                  | .error e => .error e
                  | .ok sub =>
                    match dictGetE headers (str "message-id") with
                    | .error e => .error e
                    | .ok mid =>
                      match ack_message tx st1.device_id mid sm.vin with
                      | .error e => .error e
                      | .ok ackEv => .ok (st1, [.callback sub.callback sm, ackEv])
      else .ok (st1, [])

/-- `JLRStompClient._get_next_sub_id`: `max(values.sub_id) + 1`, or 1 when the
registry is empty. -/
def maxSubId (subs : List (Str × Subscription)) : Nat :=
  (subs.map fun kv => kv.2.sub_id).foldr max 0

def get_next_sub_id (subs : List (Str × Subscription)) : Nat :=
  match subs with
  | [] => 1
  | _ => maxSubId subs + 1

/-- `JLRStompClient.subscribe`: transmit SUBSCRIBE with `id=sub-{n}`,
`destination` and `deviceId` headers, THEN record the registry entry.  A
transport raise propagates, leaving the state as it was at the raise. -/
def subscribe (tx : Tx) (st : ClientState) (destination : Str) (callback : Nat) :
    ClientState × Except PyError (List Event) :=
  let sub_id := get_next_sub_id st.subscriptions
  let headers := [(str "id", str "sub-" ++ (toString sub_id).data),
                  (str "destination", destination),
                  (str "deviceId", st.device_id)]
  match transmit tx (some (str "SUBSCRIBE")) headers none with
  | .error e => (st, .error e)
  | .ok ev =>
    ({ st with subscriptions := dictInsert st.subscriptions destination ⟨sub_id, callback⟩ },
     .ok [ev])

/-- `JLRStompClient.unsubscribe`: build the `id` header from the registry
entry under the literal key `"topic"` (as the source does), transmit
UNSUBSCRIBE, THEN `pop(destination)` — which raises `KeyError` when the
destination is not registered. -/
def unsubscribe (tx : Tx) (st : ClientState) (destination : Str) :
    ClientState × Except PyError (List Event) :=
  let headers :=
    match dictGet st.subscriptions (str "topic") with
    | some sub => [(str "id", str "sub-" ++ (toString sub.sub_id).data)]
    | none => []
  match transmit tx (some (str "UNSUBSCRIBE")) headers none with
  | .error e => (st, .error e)
  | .ok ev =>
    match dictGet st.subscriptions destination with
    | none => (st, .error .keyError)
    | some _ => ({ st with subscriptions := dictRemove st.subscriptions destination }, .ok [ev])

/-- The unsubscribe loop of `disconnect`, over a snapshot of the registry's
keys (`self._subscriptions.copy()`); an exception aborts the loop. -/
def disconnectLoop (tx : Tx) (st : ClientState) :
    List Str → ClientState × Except PyError (List Event)
  | [] => (st, .ok [])
  | d :: ds =>
    match unsubscribe tx st d with
    | (st', .error e) => (st', .error e)
    | (st', .ok evs) =>
      match disconnectLoop tx st' ds with
      | (st'', .error e) => (st'', .error e)
      | (st'', .ok evs') => (st'', .ok (evs ++ evs'))

/-- `JLRStompClient.disconnect`: unsubscribe every registered destination in
registry order, transmit DISCONNECT, send the `"CLOSE"` sentinel, then (after
the poll-wait, which is pure waiting) set `connected := false`. -/
def disconnect (tx : Tx) (st : ClientState) : ClientState × Except PyError (List Event) :=
  match disconnectLoop tx st (keys st.subscriptions) with
  | (st', .error e) => (st', .error e)
  | (st', .ok evs) =>
    match transmit tx (some (str "DISCONNECT")) [] none with
    | .error e => (st', .error e)
    | .ok ev =>
      match tx (str "CLOSE") with
      | .error e => (st', .error e)
      | .ok _ => ({ st' with connected := false }, .ok (evs ++ [ev, .wsSend (str "CLOSE")]))

/-- `Connection.ws_connect` (connection.py): with a configured message
callback it fetches the websocket URL over HTTP, connects the STOMP client and
subscribes the device and per-vehicle destinations; with no callback it raises
`JLRException` before any of that.  The destination strings (formatted from
templates in `aiojlrpy/const.py`, which is not under `src/`) are taken as
given arguments. -/
inductive ConnEvent where
  | httpGetWebsocketUrl
  | stompConnect
  | stompSubscribe (destination : Str)
  deriving DecidableEq, Repr

def ws_connect (ws_message_callback : Option Nat) (deviceDestination : Str)
    (vehicleDestinations : List Str) : Except PyError (List ConnEvent) :=
  match ws_message_callback with
  | some _ =>
    .ok (.httpGetWebsocketUrl :: .stompConnect :: .stompSubscribe deviceDestination
          :: vehicleDestinations.map .stompSubscribe)
  | none => .error .jlrError

/-- `data` of the first callback event of a dispatch result (projection used
to state concrete facts without decidable equality on events). -/
def firstCallbackData : Except PyError (ClientState × List Event) → Option Json
  | .ok (_, .callback _ sm :: _) => some sm.data
  | _ => none


/-- Modelled from the spec: the websocket delivery loop (`aiojlrpy/websocket.py`,
which is not under `src/`) invokes `_on_message` for each inbound text
message; per the spec's error taxonomy a protocol parse failure is fatal only
to that message — the session logs and drops it and continues with unchanged
state. -/
def session_step (tx : Tx) (dec : Decode) (st : ClientState) (message : Str) :
    ClientState × List Event :=
  match on_message tx dec st message with
  | .ok r => r
  | .error _ => (st, [])


/-- The live subscription ids of a registry, in registry order. -/
def subIds (subs : List (Str × Subscription)) : List Nat :=
  subs.map fun kv => kv.2.sub_id


/-- A caller-driven sequence of subscribe/unsubscribe calls. -/
inductive Op where
  | sub (destination : Str) (callback : Nat)
  | unsub (destination : Str)

/-- Run a call sequence on an always-accepting transport, recording the id
issued by each subscribe.  A raising call (the `KeyError` of an unknown
unsubscribe) leaves the state unchanged — as proven for C10 — and the
caller-driven run continues with the next call. -/
def runOps : ClientState → List Op → ClientState × List Nat
  | st, [] => (st, [])
  | st, .sub d cb :: rest =>
    let issued := get_next_sub_id st.subscriptions
    let r := runOps (subscribe txOk st d cb).1 rest
    (r.1, issued :: r.2)
  | st, .unsub d :: rest => runOps (unsubscribe txOk st d).1 rest


/-! ## Codec lemmas -/

theorem splitOnChar_ne_nil (sep : Char) (s : Str) : splitOnChar sep s ≠ [] := by
  induction s with
  | nil => simp [splitOnChar]
  | cons c cs ih =>
    simp only [splitOnChar]
    split
    · simp
    · cases h : splitOnChar sep cs with
      | nil => simp
      | cons l ls => simp

theorem splitOnChar_of_not_mem {sep : Char} {s : Str} (h : sep ∉ s) :
    splitOnChar sep s = [s] := by
  induction s with
  | nil => rfl
  | cons c cs ih =>
    simp only [List.mem_cons, not_or] at h
    simp only [splitOnChar, ih h.2]
    rw [if_neg (fun hc => h.1 (Eq.symm hc))]

theorem splitOnChar_append {sep : Char} {s : Str} (t : Str) (h : sep ∉ s) :
    splitOnChar sep (s ++ sep :: t) = s :: splitOnChar sep t := by
  induction s with
  | nil => simp [splitOnChar]
  | cons c cs ih =>
    simp only [List.mem_cons, not_or] at h
    have hcs := ih h.2
    simp only [List.cons_append, splitOnChar, List.append_eq, hcs]
    rw [if_neg (fun hc => h.1 (Eq.symm hc))]

theorem splitHeaderLine_eq {k v : Str} (hk : colon ∉ k) (hv : colon ∉ v) :
    splitHeaderLine (k ++ colon :: v) = .ok (k, v) := by
  unfold splitHeaderLine
  rw [splitOnChar_append v hk, splitOnChar_of_not_mem hv]

theorem dictInsert_of_not_mem {d : List (Str × α)} {k : Str} (v : α) (h : k ∉ keys d) :
    dictInsert d k v = d ++ [(k, v)] := by
  induction d with
  | nil => rfl
  | cons kv rest ih =>
    obtain ⟨k', v'⟩ := kv
    simp only [keys, List.map_cons, List.mem_cons, not_or] at h
    have hrest : dictInsert rest k v = rest ++ [(k, v)] := ih h.2
    show (if k' = k then (k', v) :: rest else (k', v') :: dictInsert rest k v) = _
    rw [if_neg (fun hc => h.1 (Eq.symm hc)), hrest]
    rfl

theorem foldl_dictInsert_eq (hs acc : List (Str × Str))
    (hdisj : ∀ kv ∈ hs, kv.1 ∉ keys acc) (hnodup : (keys hs).Nodup) :
    hs.foldl (fun a kv => dictInsert a kv.1 kv.2) acc = acc ++ hs := by
  induction hs generalizing acc with
  | nil => simp
  | cons kv rest ih =>
    simp only [keys, List.map_cons, List.nodup_cons] at hnodup
    have hins : dictInsert acc kv.1 kv.2 = acc ++ [(kv.1, kv.2)] :=
      dictInsert_of_not_mem _ (hdisj kv (by simp))
    have hdisj' : ∀ kv' ∈ rest, kv'.1 ∉ keys (acc ++ [(kv.1, kv.2)]) := by
      intro kv' hkv'
      simp only [keys, List.map_append, List.mem_append, List.map_cons, List.map_nil,
        List.mem_singleton, not_or]
      refine ⟨fun hmem => hdisj kv' (by simp [hkv']) (by simpa [keys] using hmem), ?_⟩
      intro heq
      exact hnodup.1 (heq ▸ List.mem_map.mpr ⟨kv', hkv', rfl⟩)
    have hrec := ih (acc ++ [(kv.1, kv.2)]) hdisj' (by simpa [keys] using hnodup.2)
    simp only [List.foldl_cons, hins, hrec, List.append_assoc, List.singleton_append]

theorem parseHeaderLines_block (hs : List (Str × Str)) (rest : List Str)
    (acc : List (Str × Str))
    (hc : ∀ kv ∈ hs, colon ∉ kv.1 ∧ colon ∉ kv.2) :
    parseHeaderLines ((hs.map fun kv => kv.1 ++ colon :: kv.2) ++ [] :: rest) acc
      = .ok (hs.foldl (fun a kv => dictInsert a kv.1 kv.2) acc, rest) := by
  induction hs generalizing acc with
  | nil => simp [parseHeaderLines]
  | cons kv tl ih =>
    have hkv := hc kv (by simp)
    simp only [List.map_cons, List.cons_append, parseHeaderLines]
    rw [if_neg (by simp), splitHeaderLine_eq hkv.1 hkv.2]
    exact ih _ (fun kv' h' => hc kv' (by simp [h']))

theorem splitOnChar_headerBlock (hs : List (Str × Str)) (t : Str)
    (h : ∀ kv ∈ hs, lf ∉ kv.1 ∧ lf ∉ kv.2) :
    splitOnChar lf ((hs.map fun kv => kv.1 ++ colon :: kv.2 ++ [lf]).flatten ++ t)
      = (hs.map fun kv => kv.1 ++ colon :: kv.2) ++ splitOnChar lf t := by
  induction hs with
  | nil => simp
  | cons kv tl ih =>
    have hkv := h kv (by simp)
    have hnl : lf ∉ kv.1 ++ colon :: kv.2 := by
      simp only [List.mem_append, List.mem_cons, not_or]
      exact ⟨hkv.1, by decide, hkv.2⟩
    calc splitOnChar lf (((kv :: tl).map fun kv => kv.1 ++ colon :: kv.2 ++ [lf]).flatten ++ t)
        = splitOnChar lf ((kv.1 ++ colon :: kv.2)
            ++ lf :: ((tl.map fun kv => kv.1 ++ colon :: kv.2 ++ [lf]).flatten ++ t)) := by
          simp [List.append_assoc]
      _ = (kv.1 ++ colon :: kv.2)
            :: splitOnChar lf ((tl.map fun kv => kv.1 ++ colon :: kv.2 ++ [lf]).flatten ++ t) :=
          splitOnChar_append _ hnl
      _ = (kv.1 ++ colon :: kv.2)
            :: ((tl.map fun kv => kv.1 ++ colon :: kv.2) ++ splitOnChar lf t) := by
          rw [ih (fun kv' h' => h kv' (by simp [h']))]
      _ = ((kv :: tl).map fun kv => kv.1 ++ colon :: kv.2) ++ splitOnChar lf t := by simp

theorem splitOnChar_cons_self (sep : Char) (t : Str) :
    splitOnChar sep (sep :: t) = [] :: splitOnChar sep t := by
  simp [splitOnChar]

/-- Line-split of a serialized frame that has a command, a nonempty header
section and an optional single-line body. -/
theorem splitOnChar_transmitFrame (cmd : Str) (headers : List (Str × Str)) (msg : Option Str)
    (hcmd_lf : lf ∉ cmd) (hcmd_ne : cmd ≠ []) (hne : headers ≠ [])
    (hh : ∀ kv ∈ headers, lf ∉ kv.1 ∧ lf ∉ kv.2)
    (hbody : ∀ b, msg = some b → b ≠ [] ∧ lf ∉ b) :
    splitOnChar lf (transmitFrame (some cmd) headers msg)
      = cmd :: ((headers.map fun kv => kv.1 ++ colon :: kv.2)
          ++ [] :: [(msg.getD []) ++ [nul]]) := by
  have harg : transmitFrame (some cmd) headers msg
      = cmd ++ lf :: ((headers.map fun kv => kv.1 ++ colon :: kv.2 ++ [lf]).flatten
          ++ lf :: ((msg.getD []) ++ [nul])) := by
    cases msg with
    | none => simp [transmitFrame, hcmd_ne, hne]
    | some b => simp [transmitFrame, hcmd_ne, hne, (hbody b rfl).1]
  have hlast : lf ∉ (msg.getD []) ++ [nul] := by
    simp only [List.mem_append, not_or]
    constructor
    · cases msg with
      | none => simp
      | some b => exact (hbody b rfl).2
    · decide
  rw [harg, splitOnChar_append _ hcmd_lf, splitOnChar_headerBlock headers _ hh,
      splitOnChar_cons_self, splitOnChar_of_not_mem hlast]

/-- Core round-trip computation shared by the codec claims. -/
theorem parse_transmitFrame_roundtrip (cmd : Str) (headers : List (Str × Str)) (msg : Option Str)
    (hcmd_lf : lf ∉ cmd) (hcmd_strip : pyStrip cmd = cmd) (hcmd_ne : cmd ≠ [])
    (hne : headers ≠ [])
    (hh : ∀ kv ∈ headers, colon ∉ kv.1 ∧ colon ∉ kv.2 ∧ lf ∉ kv.1 ∧ lf ∉ kv.2)
    (hnodup : (keys headers).Nodup)
    (hbody : ∀ b, msg = some b → b ≠ [] ∧ lf ∉ b ∧ nul ∉ b) :
    parse_message (transmitFrame (some cmd) headers msg)
      = .ok (cmd, headers, msg.map (· ++ [nul])) := by
  have hsplit := splitOnChar_transmitFrame cmd headers msg hcmd_lf hcmd_ne hne
    (fun kv hkv => ⟨(hh kv hkv).2.2.1, (hh kv hkv).2.2.2⟩)
    (fun b hb => ⟨(hbody b hb).1, (hbody b hb).2.1⟩)
  unfold parse_message
  rw [hsplit]
  dsimp only
  rw [parseHeaderLines_block headers _ [] (fun kv hkv => ⟨(hh kv hkv).1, (hh kv hkv).2.1⟩)]
  rw [foldl_dictInsert_eq headers [] (by intro kv _; simp [keys]) hnodup]
  simp only [List.nil_append, hcmd_strip]
  cases msg with
  | none => simp
  | some b =>
    have hb := hbody b rfl
    have hne' : b ++ [nul] ≠ [nul] := by
      intro hcontr
      have := congrArg List.length hcontr
      simp at this
      exact hb.1 this
    simp [hne']

/-- **C1 (amended)**: For every command (any nonempty, line-feed-free command
string fixed by Python's `str.strip()`, which covers every STOMP command of
the enum), every NONEMPTY header mapping whose keys and values contain
neither a colon nor a line feed, and every body that is either absent or a
nonempty, NUL-free, line-feed-free string, parsing the serialized frame
returns the original command and headers, and the original body with one
trailing NUL octet appended (an absent body round-trips as absent).  The
original claim's `parse(serialize(cmd, headers, body)) == (cmd, headers,
body)` fails: the parser keeps the frame-terminating NUL inside the body (see
the counterexample).  Outside this scope the round-trip fails differently:
see `transmitFrame_empty_headers_parse_raises` and
`transmitFrame_lf_body_truncates`. -/
theorem c1_roundtrip_amended (cmd : Str) (headers : List (Str × Str)) (msg : Option Str)
    (hcmd_lf : lf ∉ cmd) (hcmd_strip : pyStrip cmd = cmd) (hcmd_ne : cmd ≠ [])
    (hne : headers ≠ [])
    (hh : ∀ kv ∈ headers, colon ∉ kv.1 ∧ colon ∉ kv.2 ∧ lf ∉ kv.1 ∧ lf ∉ kv.2)
    (hnodup : (keys headers).Nodup)
    (hbody : ∀ b, msg = some b → b ≠ [] ∧ lf ∉ b ∧ nul ∉ b) :
    parse_message (transmitFrame (some cmd) headers msg)
      = .ok (cmd, headers, msg.map (· ++ [nul])) :=
  parse_transmitFrame_roundtrip cmd headers msg hcmd_lf hcmd_strip hcmd_ne hne hh hnodup hbody

/-- **C1 counterexample**: with command `SEND`, the colon-free header mapping
`{destination: d}` and the NUL-free body `B`, parsing the serialized frame
yields body `B\x00`, not `B`; the claimed round-trip equation is false. -/
theorem c1_roundtrip_counterexample :
    parse_message (transmitFrame (some (str "SEND")) [(str "destination", str "d")]
        (some (str "B")))
      ≠ .ok (str "SEND", [(str "destination", str "d")], some (str "B")) := by
  decide

/-- Witness for `c1_roundtrip_amended` at a concrete frame. -/
theorem c1_roundtrip_amended_witness :
    parse_message (transmitFrame (some (str "SEND")) [(str "k", str "v")] (some (str "B")))
      = .ok (str "SEND", [(str "k", str "v")], some (str "B" ++ [nul])) :=
  c1_roundtrip_amended (str "SEND") [(str "k", str "v")] (some (str "B"))
    (by decide) (by decide) (by decide) (by decide) (by decide) (by decide)
    (fun b hb => by injection hb with h; subst h; exact ⟨by decide, by decide, by decide⟩)

/-- Outside the amended scope, with an empty header mapping `_transmit` emits
no blank header-terminator line and parsing the serialized frame raises. -/
theorem transmitFrame_empty_headers_parse_raises :
    parse_message (transmitFrame (some (str "SEND")) [] (some (str "B")))
      = .error .valueError := by decide

/-- Outside the amended scope, a body containing a line feed is not
round-tripped and does not raise either: the parser silently truncates it at
its first line feed (only `lines[i+1]` becomes the body). -/
theorem transmitFrame_lf_body_truncates :
    parse_message (transmitFrame (some (str "SEND")) [(str "k", str "v")]
        (some (str "X\nY")))
      = .ok (str "SEND", [(str "k", str "v")], some (str "X")) := by decide

/-! ## Dispatcher theorems -/

theorem parse_lf_eq : parse_message [lf] = .error .indexError := by decide

/-- A parse hypothesis rules out the heartbeat branch. -/
theorem frame_ne_lf {frame : Str} {r} (hparse : parse_message frame = .ok r) :
    frame ≠ [lf] := by
  intro h
  rw [h, parse_lf_eq] at hparse
  exact Except.noConfusion hparse

/-- **C2 (amended)**: for every inbound MESSAGE frame whose JSON body decodes
to a single object, with the destination registered, a `message-id` header
present, and the body's `v` value (when present and truthy) a JSON string, the
dispatcher builds one StatusEvent whose `data` is the body's `a` value if that
value is present AND TRUTHY (non-null/non-zero/nonempty), else the whole body,
and whose `vin` is the body's `v` value; it invokes the registered destination
callback exactly once and transmits exactly one acknowledgement SEND frame
whose body carries the original `message-id` header value.  (The original
claim's "data is the body's `a` key if present" fails for falsy `a` values —
see the counterexample.) -/
theorem c2_single_dispatch_amended (dec : Decode) (st : ClientState) (frame : Str)
    (headers : List (Str × Str)) (raw : Str) (fields : List (Str × Json))
    (dest mid : Str) (sid cb : Nat)
    (hparse : parse_message frame = .ok (str "MESSAGE", headers, some raw))
    (hdec : dec (filter_non_printable raw) = .ok (.obj fields))
    (hdest : dictGet headers (str "destination") = some dest)
    (hmid : dictGet headers (str "message-id") = some mid)
    (hsub : dictGet st.subscriptions dest = some ⟨sid, cb⟩)
    (hvin : ∀ v, pyDictGet fields (str "v") = some v → v.truthy = true → ∃ s, v = .str s) :
    ∃ sm ackHeaders,
      on_message txOk dec st frame
        = .ok (st, [.callback cb sm,
            .transmit (some (str "SEND")) ackHeaders (some (ackBody mid))])
      ∧ sm.vin = pyDictGet fields (str "v")
      ∧ sm.data = (match pyDictGet fields (str "a") with
                   | some a => if a.truthy then a else .obj fields
                   | none => .obj fields) := by
  have hne := frame_ne_lf hparse
  unfold on_message
  rw [if_neg hne, hparse]
  dsimp only
  rw [if_neg (by decide : ¬(str "MESSAGE" = str "CONNECTED")),
      if_pos (rfl : str "MESSAGE" = str "MESSAGE"), hdec]
  dsimp only [get_status_message, dictGetE]
  rw [hdest]
  dsimp only
  rw [hsub]
  dsimp only
  rw [hmid]
  dsimp only [ack_message]
  cases hv : pyDictGet fields (str "v") with
  | none =>
    refine ⟨{ command := str "MESSAGE", message_timestamp := pyDictGet fields (str "t"),
              vin := none, service := pyDictGet fields (str "st"), topic := some dest,
              data := match pyDictGet fields (str "a") with
                      | some a => if a.truthy then a else Json.obj fields
                      | none => Json.obj fields },
           [(str "device", st.device_id),
            (str "content-type", str "application/json;charset=UTF-8"),
            (str "destination", str "/app/messageRecieved")], ?_, rfl, rfl⟩
    dsimp only [vinHeader, send, transmit, txOk]
    rfl
  | some v =>
    by_cases ht : v.truthy = true
    · obtain ⟨s, rfl⟩ := hvin v hv ht
      refine ⟨{ command := str "MESSAGE", message_timestamp := pyDictGet fields (str "t"),
                vin := some (.str s), service := pyDictGet fields (str "st"),
                topic := some dest,
                data := match pyDictGet fields (str "a") with
                        | some a => if a.truthy then a else Json.obj fields
                        | none => Json.obj fields },
             [(str "vin", s), (str "device", st.device_id),
              (str "content-type", str "application/json;charset=UTF-8"),
              (str "destination", str "/app/messageRecieved")], ?_, rfl, rfl⟩
      dsimp only [vinHeader]
      rw [if_pos ht]
      dsimp only [send, transmit, txOk]
      rfl
    · refine ⟨{ command := str "MESSAGE", message_timestamp := pyDictGet fields (str "t"),
                vin := some v, service := pyDictGet fields (str "st"), topic := some dest,
                data := match pyDictGet fields (str "a") with
                        | some a => if a.truthy then a else Json.obj fields
                        | none => Json.obj fields },
             [(str "device", st.device_id),
              (str "content-type", str "application/json;charset=UTF-8"),
              (str "destination", str "/app/messageRecieved")], ?_, rfl, rfl⟩
      dsimp only [vinHeader]
      rw [if_neg ht]
      dsimp only [send, transmit, txOk]
      rfl

/-- **C2 counterexample**: MESSAGE body `{"v": "VIN123", "a": 0}` — `a` is
present but falsy, and the dispatched StatusEvent's `data` is the whole body,
not the `a` value `0`; the claim's "data is the body's `a` key if present" is
false. -/
theorem c2_data_counterexample :
    firstCallbackData (on_message txOk
        (constDecode (.obj [(str "v", .str (str "VIN123")), (str "a", .num 0)]))
        ⟨[(str "d1", ⟨1, 7⟩)], true, str "dev"⟩
        (str "MESSAGE\ndestination:d1\nmessage-id:m1\n\nX\x00"))
      = some (.obj [(str "v", .str (str "VIN123")), (str "a", .num 0)])
    ∧ Json.obj [(str "v", .str (str "VIN123")), (str "a", .num 0)] ≠ Json.num 0 :=
  ⟨rfl, fun h => Json.noConfusion h⟩

/-- Witness for `c2_single_dispatch_amended` at a concrete frame and body. -/
theorem c2_single_dispatch_amended_witness :
    ∃ sm ackHeaders,
      on_message txOk
          (constDecode (.obj [(str "t", .num 169), (str "v", .str (str "VIN123")),
            (str "a", .obj [(str "k", .num 1)])]))
          ⟨[(str "d1", ⟨1, 7⟩)], true, str "dev"⟩
          (str "MESSAGE\ndestination:d1\nmessage-id:m1\n\nX\x00")
        = .ok (⟨[(str "d1", ⟨1, 7⟩)], true, str "dev"⟩,
            [.callback 7 sm,
             .transmit (some (str "SEND")) ackHeaders (some (ackBody (str "m1")))])
      ∧ sm.vin = pyDictGet [(str "t", .num 169), (str "v", .str (str "VIN123")),
          (str "a", .obj [(str "k", .num 1)])] (str "v")
      ∧ sm.data = (match pyDictGet [(str "t", .num 169), (str "v", .str (str "VIN123")),
          (str "a", .obj [(str "k", .num 1)])] (str "a") with
                   | some a => if a.truthy then a else .obj [(str "t", .num 169),
                       (str "v", .str (str "VIN123")), (str "a", .obj [(str "k", .num 1)])]
                   | none => .obj [(str "t", .num 169), (str "v", .str (str "VIN123")),
                       (str "a", .obj [(str "k", .num 1)])]) :=
  c2_single_dispatch_amended
    (constDecode (.obj [(str "t", .num 169), (str "v", .str (str "VIN123")),
      (str "a", .obj [(str "k", .num 1)])]))
    ⟨[(str "d1", ⟨1, 7⟩)], true, str "dev"⟩
    (str "MESSAGE\ndestination:d1\nmessage-id:m1\n\nX\x00")
    [(str "destination", str "d1"), (str "message-id", str "m1")]
    (str "X" ++ [nul])
    [(str "t", .num 169), (str "v", .str (str "VIN123")),
      (str "a", .obj [(str "k", .num 1)])]
    (str "d1") (str "m1") 1 7
    (by decide) rfl rfl rfl rfl
    (fun v hv _ => by
      injection hv with h
      exact ⟨str "VIN123", h.symm⟩)

/-- Batched dispatch: with the destination registered and every element an
object, `dispatchList` produces exactly one callback event per element, in
order. -/
theorem dispatchList_all_objects (st : ClientState) (headers : List (Str × Str))
    (elems : List Json) (dest : Str) (sid cb : Nat)
    (hdest : dictGet headers (str "destination") = some dest)
    (hsub : dictGet st.subscriptions dest = some ⟨sid, cb⟩)
    (hobj : ∀ e ∈ elems, ∃ fs, e = Json.obj fs) :
    ∃ evs, dispatchList st (str "MESSAGE") headers elems = .ok evs
      ∧ List.Forall₂ (fun e ev => ∃ sm,
          get_status_message (str "MESSAGE") headers e = .ok sm
          ∧ ev = Event.callback cb sm) elems evs := by
  induction elems with
  | nil => exact ⟨[], rfl, List.Forall₂.nil⟩
  | cons e rest ih =>
    obtain ⟨fs, rfl⟩ := hobj e (by simp)
    obtain ⟨evs, hevs, hfa⟩ := ih (fun e' he' => hobj e' (by simp [he']))
    refine ⟨Event.callback cb
        { command := str "MESSAGE", message_timestamp := pyDictGet fs (str "t"),
          vin := pyDictGet fs (str "v"), service := pyDictGet fs (str "st"),
          topic := some dest,
          data := match pyDictGet fs (str "a") with
                  | some a => if a.truthy then a else Json.obj fs
                  | none => Json.obj fs } :: evs, ?_, ?_⟩
    · dsimp only [dispatchList, dictGetE, get_status_message]
      rw [hdest]
      dsimp only
      rw [hsub]
      dsimp only
      rw [hevs]
    · exact List.Forall₂.cons
        ⟨_, by dsimp only [get_status_message]; rw [hdest], rfl⟩ hfa

/-- **C3**: for every inbound MESSAGE frame whose JSON body decodes to an
array of N objects (destination registered), the dispatcher invokes the
destination's registered callback exactly N times, once per array element, in
array order, and transmits no acknowledgement frame — indeed nothing at all:
every produced event is a callback event, one per element, for any transport. -/
theorem c3_batched_dispatch (tx : Tx) (dec : Decode) (st : ClientState) (frame : Str)
    (headers : List (Str × Str)) (raw : Str) (elems : List Json) (dest : Str) (sid cb : Nat)
    (hparse : parse_message frame = .ok (str "MESSAGE", headers, some raw))
    (hdec : dec (filter_non_printable raw) = .ok (.arr elems))
    (hdest : dictGet headers (str "destination") = some dest)
    (hsub : dictGet st.subscriptions dest = some ⟨sid, cb⟩)
    (hobj : ∀ e ∈ elems, ∃ fs, e = Json.obj fs) :
    ∃ evs, on_message tx dec st frame = .ok (st, evs)
      ∧ evs.length = elems.length
      ∧ List.Forall₂ (fun e ev => ∃ sm,
          get_status_message (str "MESSAGE") headers e = .ok sm
          ∧ ev = Event.callback cb sm) elems evs := by
  obtain ⟨evs, hevs, hfa⟩ := dispatchList_all_objects st headers elems dest sid cb hdest hsub hobj
  refine ⟨evs, ?_, hfa.length_eq.symm, hfa⟩
  have hne := frame_ne_lf hparse
  unfold on_message
  rw [if_neg hne, hparse]
  dsimp only
  rw [if_neg (by decide : ¬(str "MESSAGE" = str "CONNECTED")),
      if_pos (rfl : str "MESSAGE" = str "MESSAGE"), hdec]
  dsimp only
  rw [hevs]

/-- Witness for `c3_batched_dispatch`: a batch of 3 objects yields exactly 3
callback invocations in order and no acknowledgement. -/
theorem c3_batched_dispatch_witness :
    ∃ evs, on_message txOk
        (constDecode (.arr [.obj [(str "v", .str (str "V1"))],
          .obj [(str "v", .str (str "V2"))], .obj [(str "v", .str (str "V3"))]]))
        ⟨[(str "d1", ⟨1, 7⟩)], true, str "dev"⟩
        (str "MESSAGE\ndestination:d1\nmessage-id:m1\n\nX\x00")
      = .ok (⟨[(str "d1", ⟨1, 7⟩)], true, str "dev"⟩, evs)
      ∧ evs.length = ([.obj [(str "v", .str (str "V1"))], .obj [(str "v", .str (str "V2"))],
          .obj [(str "v", .str (str "V3"))]] : List Json).length
      ∧ List.Forall₂ (fun e ev => ∃ sm,
          get_status_message (str "MESSAGE")
              [(str "destination", str "d1"), (str "message-id", str "m1")] e = .ok sm
          ∧ ev = Event.callback 7 sm)
          [.obj [(str "v", .str (str "V1"))], .obj [(str "v", .str (str "V2"))],
           .obj [(str "v", .str (str "V3"))]] evs :=
  c3_batched_dispatch txOk
    (constDecode (.arr [.obj [(str "v", .str (str "V1"))],
      .obj [(str "v", .str (str "V2"))], .obj [(str "v", .str (str "V3"))]]))
    ⟨[(str "d1", ⟨1, 7⟩)], true, str "dev"⟩
    (str "MESSAGE\ndestination:d1\nmessage-id:m1\n\nX\x00")
    [(str "destination", str "d1"), (str "message-id", str "m1")]
    (str "X" ++ [nul])
    [.obj [(str "v", .str (str "V1"))], .obj [(str "v", .str (str "V2"))],
     .obj [(str "v", .str (str "V3"))]]
    (str "d1") 1 7
    (by decide) rfl rfl rfl
    (by
      intro e he
      simp only [List.mem_cons, List.not_mem_nil, or_false] at he
      rcases he with h | h | h <;> exact ⟨_, h⟩)

/-- **C4**: evaluation of `unsubscribe` at an unknown destination — the call
raises `KeyError` from `self._subscriptions.pop(destination)` instead of
being a no-op (the registry itself is left unchanged). -/
theorem c4_unsubscribe_unknown_raises :
    unsubscribe txOk ⟨[], false, str "dev"⟩ (str "unknown")
      = (⟨[], false, str "dev"⟩, .error .keyError) := rfl

/-- **C7**: evaluation of `unsubscribe` at a registered destination — because
the id lookup uses the literal key `"topic"` instead of the destination, the
transmitted UNSUBSCRIBE frame carries NO `id` header, so the server-side
subscription `sub-1` is never identified for removal. -/
theorem c7_unsubscribe_missing_id_header :
    unsubscribe txOk ⟨[(str "vehicleDest", ⟨1, 7⟩)], true, str "dev"⟩ (str "vehicleDest")
      = (⟨[], true, str "dev"⟩, .ok [.transmit (some (str "UNSUBSCRIBE")) [] none]) := rfl

/-- **C5**: with exactly the subscriptions A then B in the registry (registry
insertion order, distinct destinations), `disconnect` emits one UNSUBSCRIBE
frame for the unsubscribe of A, then one for B (registry order), then one
DISCONNECT frame, then the `"CLOSE"` transport close sentinel — in exactly
that order — and afterwards the subscription registry is empty (and
`connected` is false). -/
theorem c5_disconnect_sequencing (st : ClientState) (A B : Str) (sa sb : Subscription)
    (hsubs : st.subscriptions = [(A, sa), (B, sb)]) (hAB : A ≠ B) :
    ∃ h1 h2,
      disconnect txOk st
        = ({ st with subscriptions := [], connected := false },
           .ok [.transmit (some (str "UNSUBSCRIBE")) h1 none,
                .transmit (some (str "UNSUBSCRIBE")) h2 none,
                .transmit (some (str "DISCONNECT")) [] none,
                .wsSend (str "CLOSE")]) := by
  by_cases hA : A = str "topic"
  · by_cases hB : B = str "topic"
    · exact absurd (hA.trans hB.symm) hAB
    · refine ⟨[(str "id", str "sub-" ++ (toString sa.sub_id).data)], [], ?_⟩
      subst hA
      simp [disconnect, disconnectLoop, unsubscribe, transmit, txOk, keys, hsubs,
        dictGet, dictRemove, hB]
  · by_cases hB : B = str "topic"
    · refine ⟨[(str "id", str "sub-" ++ (toString sb.sub_id).data)],
              [(str "id", str "sub-" ++ (toString sb.sub_id).data)], ?_⟩
      subst hB
      simp [disconnect, disconnectLoop, unsubscribe, transmit, txOk, keys, hsubs,
        dictGet, dictRemove, hA]
    · refine ⟨[], [], ?_⟩
      simp [disconnect, disconnectLoop, unsubscribe, transmit, txOk, keys, hsubs,
        dictGet, dictRemove, hA, hB]

/-- Witness for `c5_disconnect_sequencing` on a concrete two-entry registry. -/
theorem c5_disconnect_sequencing_witness :
    ∃ h1 h2,
      disconnect txOk ⟨[(str "a", ⟨1, 7⟩), (str "b", ⟨2, 8⟩)], true, str "dev"⟩
        = (⟨[], false, str "dev"⟩,
           .ok [.transmit (some (str "UNSUBSCRIBE")) h1 none,
                .transmit (some (str "UNSUBSCRIBE")) h2 none,
                .transmit (some (str "DISCONNECT")) [] none,
                .wsSend (str "CLOSE")]) :=
  c5_disconnect_sequencing ⟨[(str "a", ⟨1, 7⟩), (str "b", ⟨2, 8⟩)], true, str "dev"⟩
    (str "a") (str "b") ⟨1, 7⟩ ⟨2, 8⟩ rfl (by decide)

/-- **C8 (amended)**: a malformed inbound frame — a header line with no colon
or with more than one colon, or a truncated frame — makes `_parse_message`
raise, which is fatal only to that message: the (spec-modelled) session layer
logs and drops it, leaving the client state unchanged and producing no events.
Header lines with EXACTLY ONE colon are split at it into key and value; the
original claim's "split on the first colon" fails for header lines with more
than one colon, which raise a ValueError instead of splitting (see the
counterexample). -/
theorem c8_parse_failure_dropped_and_header_split :
    (∀ (tx : Tx) (dec : Decode) (st : ClientState) (frame : Str) (e : PyError),
        frame ≠ [lf] → parse_message frame = .error e →
        (on_message tx dec st frame = .error e
          ∧ session_step tx dec st frame = (st, [])))
    ∧ (∀ (cmd k v : Str), lf ∉ cmd → pyStrip cmd = cmd → cmd ≠ [] →
        colon ∉ k → colon ∉ v → lf ∉ k → lf ∉ v →
        parse_message (transmitFrame (some cmd) [(k, v)] none)
          = .ok (cmd, [(k, v)], none)) := by
  constructor
  · intro tx dec st frame e hne hp
    have hom : on_message tx dec st frame = .error e := by
      unfold on_message
      rw [if_neg hne, hp]
    exact ⟨hom, by unfold session_step; rw [hom]⟩
  · intro cmd k v h1 h2 h3 h4 h5 h6 h7
    have hrt := parse_transmitFrame_roundtrip cmd [(k, v)] none h1 h2 h3 (by simp)
      (by
        intro kv hkv
        simp only [List.mem_singleton] at hkv
        subst hkv
        exact ⟨h4, h5, h6, h7⟩)
      (by simp [keys]) (fun b hb => by cases hb)
    simpa using hrt

/-- **C8 counterexample**: the header line `a:b:c` does contain a colon but is
NOT split on the first colon into key `a` and value `b:c`: the parse raises
`ValueError` instead (the source unpacks `split(":")` — three parts — into two
variables). -/
theorem c8_multi_colon_counterexample :
    parse_message (str "MESSAGE\na:b:c\n\n\x00") = .error .valueError
    ∧ parse_message (str "MESSAGE\na:b:c\n\n\x00")
        ≠ .ok (str "MESSAGE", [(str "a", str "b:c")], none) :=
  ⟨by decide, by decide⟩

/-- Witness for `c8_parse_failure_dropped_and_header_split`. -/
theorem c8_parse_failure_dropped_and_header_split_witness :
    (on_message txOk (constDecode .null) ⟨[], false, str "dev"⟩
        (str "MESSAGE\nbad\n\n\x00") = .error .valueError
      ∧ session_step txOk (constDecode .null) ⟨[], false, str "dev"⟩
          (str "MESSAGE\nbad\n\n\x00") = (⟨[], false, str "dev"⟩, []))
    ∧ parse_message (transmitFrame (some (str "SEND")) [(str "k", str "v")] none)
        = .ok (str "SEND", [(str "k", str "v")], none) :=
  ⟨c8_parse_failure_dropped_and_header_split.1 txOk (constDecode .null)
      ⟨[], false, str "dev"⟩ (str "MESSAGE\nbad\n\n\x00") .valueError
      (by decide) (by decide),
   c8_parse_failure_dropped_and_header_split.2 (str "SEND") (str "k") (str "v")
      (by decide) (by decide) (by decide) (by decide) (by decide) (by decide) (by decide)⟩

/-! ## Subscription id allocation (C6) -/

theorem le_foldr_max {l : List Nat} {x : Nat} (h : x ∈ l) : x ≤ l.foldr max 0 := by
  induction l with
  | nil => cases h
  | cons y ys ih =>
    rcases List.mem_cons.mp h with rfl | h'
    · exact le_max_left _ _
    · exact le_trans (ih h') (le_max_right _ _)

theorem foldr_max_le {l : List Nat} {j : Nat} (h : ∀ x ∈ l, x ≤ j) : l.foldr max 0 ≤ j := by
  induction l with
  | nil => exact Nat.zero_le j
  | cons y ys ih => exact max_le (h y (by simp)) (ih fun x hx => h x (by simp [hx]))

/-- Every live id is strictly below the next allocated id. -/
theorem subId_lt_next (subs : List (Str × Subscription)) :
    ∀ kv ∈ subs, kv.2.sub_id < get_next_sub_id subs := by
  intro kv hkv
  cases subs with
  | nil => cases hkv
  | cons x xs =>
    show kv.2.sub_id < maxSubId (x :: xs) + 1
    exact Nat.lt_succ_of_le (le_foldr_max (List.mem_map.mpr ⟨kv, hkv, rfl⟩))

theorem maxSubId_dictInsert (subs : List (Str × Subscription)) (d : Str) (j cb : Nat)
    (hub : ∀ kv ∈ subs, kv.2.sub_id ≤ j) :
    maxSubId (dictInsert subs d ⟨j, cb⟩) = j := by
  induction subs with
  | nil =>
    show max j 0 = j
    exact Nat.max_zero j
  | cons x xs ih =>
    obtain ⟨k', v'⟩ := x
    show maxSubId (if k' = d then (k', ⟨j, cb⟩) :: xs
      else (k', v') :: dictInsert xs d ⟨j, cb⟩) = j
    by_cases hk : k' = d
    · rw [if_pos hk]
      show max j (maxSubId xs) = j
      refine max_eq_left (foldr_max_le ?_)
      intro x hx
      obtain ⟨kv, hkv, rfl⟩ := List.mem_map.mp hx
      exact hub kv (by simp [hkv])
    · rw [if_neg hk]
      show max v'.sub_id (maxSubId (dictInsert xs d ⟨j, cb⟩)) = j
      rw [ih (fun kv hkv => hub kv (by simp [hkv]))]
      exact max_eq_right (hub (k', v') (by simp))

theorem dictInsert_ne_nil (d : List (Str × α)) (k : Str) (v : α) :
    dictInsert d k v ≠ [] := by
  cases d with
  | nil => simp [dictInsert]
  | cons x xs =>
    obtain ⟨k', v'⟩ := x
    show (if k' = k then (k', v) :: xs else (k', v') :: dictInsert xs k v) ≠ []
    split <;> simp

theorem get_next_of_ne_nil {subs : List (Str × Subscription)} (h : subs ≠ []) :
    get_next_sub_id subs = maxSubId subs + 1 := by
  cases subs with
  | nil => exact absurd rfl h
  | cons x xs => rfl

/-- Subscribing increments the next id by exactly one. -/
theorem next_id_subscribe (st : ClientState) (d : Str) (cb : Nat) :
    get_next_sub_id ((subscribe txOk st d cb).1).subscriptions
      = get_next_sub_id st.subscriptions + 1 := by
  have hsubs : ((subscribe txOk st d cb).1).subscriptions
      = dictInsert st.subscriptions d ⟨get_next_sub_id st.subscriptions, cb⟩ := rfl
  rw [hsubs, get_next_of_ne_nil (dictInsert_ne_nil _ _ _),
      maxSubId_dictInsert _ _ _ _ (fun kv hkv => Nat.le_of_lt (subId_lt_next _ kv hkv))]

theorem runOps_all_subs (pairs : List (Str × Nat)) (st : ClientState) :
    (runOps st (pairs.map fun p => Op.sub p.1 p.2)).2
      = List.range' (get_next_sub_id st.subscriptions) pairs.length := by
  induction pairs generalizing st with
  | nil => rfl
  | cons p rest ih =>
    show (get_next_sub_id st.subscriptions)
        :: (runOps (subscribe txOk st p.1 p.2).1 (rest.map fun p => Op.sub p.1 p.2)).2
      = List.range' (get_next_sub_id st.subscriptions) (rest.length + 1)
    rw [ih, next_id_subscribe]
    rfl

theorem mem_subIds_dictInsert {subs : List (Str × Subscription)} {d : Str}
    {s : Subscription} {x : Nat} (hx : x ∈ subIds (dictInsert subs d s)) :
    x ∈ subIds subs ∨ x = s.sub_id := by
  induction subs with
  | nil =>
    simp only [dictInsert, subIds, List.map_cons, List.map_nil,
      List.mem_singleton] at hx
    exact Or.inr hx
  | cons y ys ih =>
    obtain ⟨k', v'⟩ := y
    simp only [dictInsert] at hx
    by_cases hk : k' = d
    · rw [if_pos hk] at hx
      simp only [subIds, List.map_cons, List.mem_cons] at hx ⊢
      rcases hx with h | h
      · exact Or.inr h
      · exact Or.inl (Or.inr h)
    · rw [if_neg hk] at hx
      simp only [subIds, List.map_cons, List.mem_cons] at hx ⊢
      rcases hx with h | h
      · exact Or.inl (Or.inl h)
      · rcases ih h with h' | h'
        · exact Or.inl (Or.inr h')
        · exact Or.inr h'

theorem nodup_subIds_dictInsert {subs : List (Str × Subscription)} {d : Str}
    {s : Subscription} (hlt : ∀ kv ∈ subs, kv.2.sub_id < s.sub_id)
    (hnd : (subIds subs).Nodup) : (subIds (dictInsert subs d s)).Nodup := by
  induction subs with
  | nil => simp [dictInsert, subIds]
  | cons y ys ih =>
    obtain ⟨k', v'⟩ := y
    simp only [subIds, List.map_cons, List.nodup_cons] at hnd
    simp only [dictInsert]
    by_cases hk : k' = d
    · rw [if_pos hk]
      simp only [subIds, List.map_cons, List.nodup_cons]
      constructor
      · intro hmem
        obtain ⟨kv, hkv, hkveq⟩ := List.mem_map.mp hmem
        exact absurd hkveq (Nat.ne_of_lt (hlt kv (List.mem_cons.mpr (Or.inr hkv))))
      · exact hnd.2
    · rw [if_neg hk]
      simp only [subIds, List.map_cons, List.nodup_cons]
      constructor
      · intro hmem
        rcases mem_subIds_dictInsert hmem with h' | h'
        · exact hnd.1 h'
        · exact absurd h' (Nat.ne_of_lt (hlt (k', v') (by simp)))
      · exact ih (fun kv hkv => hlt kv (by simp [hkv])) hnd.2

theorem sublist_dictRemove (d : List (Str × α)) (k : Str) :
    List.Sublist (dictRemove d k) d := by
  induction d with
  | nil => simp [dictRemove]
  | cons y ys ih =>
    obtain ⟨k', v'⟩ := y
    show List.Sublist (if k' = k then ys else (k', v') :: dictRemove ys k) _
    split
    · exact List.sublist_cons_self _ _
    · exact ih.cons₂ _

theorem unsubscribe_state_none (st : ClientState) (d : Str)
    (h : dictGet st.subscriptions d = none) :
    (unsubscribe txOk st d).1 = st := by
  simp [unsubscribe, transmit, txOk, h]

theorem unsubscribe_subs_some (st : ClientState) (d : Str) (s : Subscription)
    (h : dictGet st.subscriptions d = some s) :
    ((unsubscribe txOk st d).1).subscriptions = dictRemove st.subscriptions d := by
  simp [unsubscribe, transmit, txOk, h]

theorem nodup_subIds_unsubscribe (st : ClientState) (d : Str)
    (hnd : (subIds st.subscriptions).Nodup) :
    (subIds ((unsubscribe txOk st d).1).subscriptions).Nodup := by
  cases h : dictGet st.subscriptions d with
  | none => rw [unsubscribe_state_none st d h]; exact hnd
  | some s =>
    rw [unsubscribe_subs_some st d s h]
    exact hnd.sublist ((sublist_dictRemove _ _).map _)

theorem nodup_subIds_runOps (ops : List Op) (st : ClientState)
    (hnd : (subIds st.subscriptions).Nodup) :
    (subIds ((runOps st ops).1).subscriptions).Nodup := by
  induction ops generalizing st with
  | nil => exact hnd
  | cons op rest ih =>
    cases op with
    | sub d cb =>
      show (subIds ((runOps (subscribe txOk st d cb).1 rest).1).subscriptions).Nodup
      refine ih _ ?_
      show (subIds (dictInsert st.subscriptions d
        ⟨get_next_sub_id st.subscriptions, cb⟩)).Nodup
      exact nodup_subIds_dictInsert (fun kv hkv => subId_lt_next _ kv hkv) hnd
    | unsub d =>
      exact ih _ (nodup_subIds_unsubscribe st d hnd)

/-- **C6 counterexample**: the interleaving subscribe a, subscribe b,
unsubscribe b, subscribe c issues the ids 1, 2, 2: after b (id 2) is
removed, max(remaining)+1 = 2 is issued again, so the session-wide id
sequence is neither unique nor strictly increasing. -/
theorem c6_id_reuse_counterexample :
    (runOps ⟨[], false, str "dev"⟩
        [.sub (str "a") 0, .sub (str "b") 0, .unsub (str "b"), .sub (str "c") 0]).2
      = [1, 2, 2]
    ∧ ¬ ([1, 2, 2] : List Nat).Nodup := ⟨rfl, by decide⟩

/-- **C6 (amended)**: ids are allocated as max(live ids)+1, or 1 when the
registry is empty; after N subscribes with no unsubscribes the issued ids are
exactly 1..N in issuance order; the ids of live registry entries are pairwise
distinct after any interleaving of subscribe and unsubscribe calls; and each
newly allocated id is strictly greater than every live id.  The original
claim's session-wide uniqueness and strict increase fail: after removing the
subscription holding the maximal id, that id is issued again (see the
counterexample). -/
theorem c6_id_allocation_amended :
    (∀ (device : Str) (pairs : List (Str × Nat)),
        (runOps ⟨[], false, device⟩ (pairs.map fun p => Op.sub p.1 p.2)).2
          = List.range' 1 pairs.length)
    ∧ (∀ (device : Str) (ops : List Op),
        (subIds ((runOps ⟨[], false, device⟩ ops).1).subscriptions).Nodup)
    ∧ (∀ (subs : List (Str × Subscription)), ∀ kv ∈ subs,
        kv.2.sub_id < get_next_sub_id subs) :=
  ⟨fun device pairs => runOps_all_subs pairs ⟨[], false, device⟩,
   fun device ops => nodup_subIds_runOps ops ⟨[], false, device⟩ (by simp [subIds]),
   subId_lt_next⟩

/-- Witness for `c6_id_allocation_amended` at concrete runs. -/
theorem c6_id_allocation_amended_witness :
    (runOps ⟨[], false, str "dev"⟩ ([(str "a", 5), (str "b", 6)].map
        fun p => Op.sub p.1 p.2)).2 = List.range' 1 2
    ∧ (2 : Nat) < get_next_sub_id [(str "a", ⟨1, 5⟩), (str "b", ⟨2, 6⟩)] :=
  ⟨c6_id_allocation_amended.1 (str "dev") [(str "a", 5), (str "b", 6)],
   c6_id_allocation_amended.2.2 [(str "a", ⟨1, 5⟩), (str "b", ⟨2, 6⟩)]
     (str "b", ⟨2, 6⟩) (by decide)⟩

/-- **C9**: invoking `ws_connect` with no configured message callback fails
with the explicit `JLRException` configuration error, before any HTTP request
or transport connection event is produced. -/
theorem c9_ws_connect_requires_callback (deviceDestination : Str)
    (vehicleDestinations : List Str) :
    ws_connect none deviceDestination vehicleDestinations = .error .jlrError := rfl

/-- **C10**: in both `subscribe` and `unsubscribe` the frame is transmitted
before the registry is mutated, so whenever the call raises (in particular
when the transmit raises a transport error) the subscription registry — and
the whole client state — is exactly as it was before the call. -/
theorem c10_transmit_failure_leaves_registry (tx : Tx) (st : ClientState)
    (destination : Str) (callback : Nat) (e e' : PyError) :
    ((subscribe tx st destination callback).2 = .error e
       → (subscribe tx st destination callback).1 = st)
    ∧ ((unsubscribe tx st destination).2 = .error e'
       → (unsubscribe tx st destination).1 = st) := by
  constructor
  · dsimp only [subscribe]
    split
    · intro _; rfl
    · intro h; simp at h
  · dsimp only [unsubscribe]
    split
    · intro _; rfl
    · split
      · intro _; rfl
      · intro h; simp at h

/-- Witness for `c10_transmit_failure_leaves_registry` on a failing transport. -/
theorem c10_transmit_failure_leaves_registry_witness :
    (subscribe txFail ⟨[(str "a", ⟨1, 2⟩)], true, str "dev"⟩ (str "b") 3).1
        = ⟨[(str "a", ⟨1, 2⟩)], true, str "dev"⟩
    ∧ (unsubscribe txFail ⟨[(str "a", ⟨1, 2⟩)], true, str "dev"⟩ (str "a")).1
        = ⟨[(str "a", ⟨1, 2⟩)], true, str "dev"⟩ :=
  ⟨(c10_transmit_failure_leaves_registry txFail _ (str "b") 3
      .transportError .transportError).1 rfl,
   (c10_transmit_failure_leaves_registry txFail _ (str "a") 3
      .transportError .transportError).2 rfl⟩

end Aiojlrpy
